import Mathlib

/-!
Verification of the rust_units library: dimension algebra, quantities and
unit conversion.

The compile-time design (src/core/) tags a `Quantity` with a phantom
`Dimension` type and stores the magnitude in SI scale; units convert
between a user scale and the SI scale.  The `Dimension` trait in
src/core/dimension.rs is an empty marker trait: the repository ships no
concrete dimension types and no operator implementations on dimensions,
so the dimension-level operator algebra used by the generic `Quantity`
and `SIPropUnit` operator impls is modelled from the spec (each such
definition is marked below).  Magnitudes are modelled with exact
rationals in place of f64, so arithmetic identities hold exactly.
-/

namespace RustUnits

/-- A dimension: seven signed integer exponents over the SI base
dimensions, as in the `Dimension` trait's associated types `L M T I Th N J`
(src/dimension.rs) and the spec's 7-tuple descriptor. -/
structure Dimension7 where
  length : Int
  mass : Int
  time : Int
  electric_current : Int
  temperature : Int
  amount_of_substance : Int
  luminous_intensity : Int
deriving DecidableEq, Repr

/-- The runtime dimension descriptor `RuntimeDimension` from
src/dimension.rs: a plain record of the seven exponents, with structural
equality (`derive(PartialEq, Eq)`). -/
structure RuntimeDimension where
  length : Int
  mass : Int
  time : Int
  electric_current : Int
  temperature : Int
  amount_of_substance : Int
  luminous_intensity : Int
deriving DecidableEq, Repr

/-- `RuntimeDimension::new` from src/dimension.rs: records the seven
exponents. -/
def RuntimeDimension.new (length mass time electric_current temperature
    amount_of_substance luminous_intensity : Int) : RuntimeDimension :=
  ⟨length, mass, time, electric_current, temperature, amount_of_substance,
    luminous_intensity⟩

/-- `Dimension::get_runtime_dim` from src/dimension.rs: builds a
`RuntimeDimension` from the dimension's seven exponents via
`RuntimeDimension::new`. -/
def Dimension7.get_runtime_dim (d : Dimension7) : RuntimeDimension :=
  RuntimeDimension.new d.length d.mass d.time d.electric_current
    d.temperature d.amount_of_substance d.luminous_intensity

/-- Modelled from the spec: the dimension algebra's `combine(a, b, +)`
(spec section 4.1) — component-wise addition of the seven exponents.  The
repository declares the `Dimension` marker trait (src/core/dimension.rs)
but ships no concrete dimension types or operator impls on them. -/
def dimCombine (a b : Dimension7) : Dimension7 :=
  ⟨a.length + b.length, a.mass + b.mass, a.time + b.time,
    a.electric_current + b.electric_current, a.temperature + b.temperature,
    a.amount_of_substance + b.amount_of_substance,
    a.luminous_intensity + b.luminous_intensity⟩

/-- Modelled from the spec: `negate(a)` (spec section 4.1) — component-wise
negation of the seven exponents (reciprocal dimension). -/
def dimNegate (a : Dimension7) : Dimension7 :=
  ⟨-a.length, -a.mass, -a.time, -a.electric_current, -a.temperature,
    -a.amount_of_substance, -a.luminous_intensity⟩

/-- Modelled from the spec: the all-zero identity descriptor
(dimensionless), spec section 4.1. -/
def dimIdentity : Dimension7 := ⟨0, 0, 0, 0, 0, 0, 0⟩

/-- Modelled from the spec: the dimension-level `Add` impl used by the
generic `Add` on `Quantity` (src/core/quantity.rs requires `Dl: Add<Dr>`).
The spec (section 4.2) prescribes that quantity addition is defined only
between identical dimensions with the same dimension as result, so the
coherent dimension-level `Add` exists exactly on equal dimensions and
returns that dimension; `none` models the absent trait impl (compile-time
rejection). -/
def dimAdd (a b : Dimension7) : Option Dimension7 :=
  if a = b then some a else none

/-- Modelled from the spec: the dimension-level `Sub` impl used by the
generic `Sub` on `Quantity`, defined exactly on equal dimensions,
returning that dimension (spec section 4.2). -/
def dimSub (a b : Dimension7) : Option Dimension7 :=
  if a = b then some a else none

/-- Modelled from the spec: the dimension-level `Mul` impl used by the
generic `Mul` on `Quantity` and on `SIPropUnit` (`Dl: Mul<Dr>`): the
dimension of a product is `combine(D1, D2)` (spec sections 4.1, 4.2). -/
def dimMul (a b : Dimension7) : Dimension7 := dimCombine a b

/-- Modelled from the spec: the dimension-level `Div` impl used by the
generic `Div` on `Quantity` and on `SIPropUnit` (`Dl: Div<Dr>`): the
dimension of a quotient is `combine(D1, negate(D2))` (spec sections 4.1,
4.2). -/
def dimDiv (a b : Dimension7) : Dimension7 := dimCombine a (dimNegate b)

/-- Modelled from the spec: the dimension-level `Neg` impl used by the
generic `Neg` on `Quantity` (`D: Neg`): for unary sign-flip negation of a
quantity the dimension is unchanged (spec section 4.2). -/
def dimNegQ (a : Dimension7) : Dimension7 := a

/-- The length dimension (exponents L=1, rest 0). -/
def lengthDim : Dimension7 := ⟨1, 0, 0, 0, 0, 0, 0⟩

/-- The time dimension (exponents T=1, rest 0). -/
def timeDim : Dimension7 := ⟨0, 0, 1, 0, 0, 0, 0⟩

/-- `Quantity<T, D>` from src/core/quantity.rs: a magnitude stored in the
SI scale, tagged with a phantom dimension.  The phantom tag is modelled as
a type index. -/
structure Quantity (α : Type) (D : Dimension7) where
  value : α

/-- `Quantity::from_si` (src/core/quantity.rs): wraps a raw SI magnitude. -/
def Quantity.from_si {α : Type} {D : Dimension7} (value : α) : Quantity α D :=
  ⟨value⟩

/-- `Quantity::get_si` (src/core/quantity.rs): unwraps the raw SI
magnitude. -/
def Quantity.get_si {α : Type} {D : Dimension7} (q : Quantity α D) : α :=
  q.value

/-- The generic `impl Add for Quantity` (src/core/quantity.rs lines
89-99): magnitude is the sum, dimension tag is routed through the
dimension-level `Add` (`dimAdd`); the hypothesis models the trait bound
`Dl: Add<Dr>` being satisfied with output `D3`. -/
def Quantity.add {α : Type} [Add α] {D1 D2 : Dimension7}
    (q1 : Quantity α D1) (q2 : Quantity α D2) (D3 : Dimension7)
    (_h : dimAdd D1 D2 = some D3) : Quantity α D3 :=
  Quantity.from_si (q1.get_si + q2.get_si)

/-- The generic `impl Sub for Quantity` (src/core/quantity.rs lines
185-195): magnitude is the difference, dimension tag routed through the
dimension-level `Sub` (`dimSub`). -/
def Quantity.sub {α : Type} [Sub α] {D1 D2 : Dimension7}
    (q1 : Quantity α D1) (q2 : Quantity α D2) (D3 : Dimension7)
    (_h : dimSub D1 D2 = some D3) : Quantity α D3 :=
  Quantity.from_si (q1.get_si - q2.get_si)

/-- The generic `impl Mul for Quantity` (src/core/quantity.rs lines
131-141): magnitude is the product, dimension is the dimension-level
`Mul` of the tags. -/
def Quantity.mul {α : Type} [Mul α] {D1 D2 : Dimension7}
    (q1 : Quantity α D1) (q2 : Quantity α D2) : Quantity α (dimMul D1 D2) :=
  Quantity.from_si (q1.get_si * q2.get_si)

/-- The generic `impl Div for Quantity` (src/core/quantity.rs lines
110-120): magnitude is the quotient, dimension is the dimension-level
`Div` of the tags. -/
def Quantity.div {α : Type} [Div α] {D1 D2 : Dimension7}
    (q1 : Quantity α D1) (q2 : Quantity α D2) : Quantity α (dimDiv D1 D2) :=
  Quantity.from_si (q1.get_si / q2.get_si)

/-- The generic `impl Neg for Quantity` (src/core/quantity.rs lines
152-162): magnitude is negated, dimension tag routed through the
dimension-level `Neg` (`dimNegQ`). -/
def Quantity.neg {α : Type} [Neg α] {D : Dimension7}
    (q : Quantity α D) : Quantity α (dimNegQ D) :=
  Quantity.from_si (-q.get_si)

/-- `SIUnit<D>` from src/core/units/si_unit.rs: the SI (identity) unit
for a dimension; holds no data beyond the phantom dimension. -/
structure SIUnit (D : Dimension7) where

/-- `SIPropUnit<K, D>` from src/core/units/proportional_unit.rs: a unit
proportional to the SI unit, carrying its proportionality constant. -/
structure SIPropUnit (K : Type) (D : Dimension7) where
  prop_constant : K

/-- `SIPropUnit::new` (src/core/units/proportional_unit.rs lines 54-68):
stores the given proportionality constant with no validation. -/
def SIPropUnit.new {K : Type} {D : Dimension7} (prop_constant : K) :
    SIPropUnit K D :=
  ⟨prop_constant⟩

/-- The `Unit` trait (src/core/units.rs): `new` converts a value into a
`Quantity`, `get` retrieves the value of a `Quantity`. -/
class Unit (α : Type) (U : Type) (D : outParam Dimension7) where
  new : U → α → Quantity α D
  get : U → Quantity α D → α

/-- `impl Unit for SIUnit` (src/core/units/si_unit.rs lines 22-32):
`new` is `Quantity::from_si`, `get` is `Quantity::get_si`. -/
instance instUnitSIUnit {α : Type} {D : Dimension7} : Unit α (SIUnit D) D where
  new _ value := Quantity.from_si value
  get _ q := q.get_si

/-- The blanket `impl Unit for U: SIProportionalUnit`
(src/core/units/proportional_unit.rs lines 29-42), instantiated at
`SIPropUnit` (whose `prop_constant` method returns the stored constant):
`new value = Quantity::from_si(value * k)`, `get q = q.get_si() / k`. -/
instance instUnitSIPropUnit {α : Type} [Mul α] [Div α] {D : Dimension7} :
    Unit α (SIPropUnit α D) D where
  new u value := Quantity.from_si (value * u.prop_constant)
  get u q := q.get_si / u.prop_constant

/-- `impl Mul for SIPropUnit` (src/core/units/proportional_unit.rs lines
131-143): the constant is the product of the constants, the dimension is
the dimension-level `Mul` of the dimensions. -/
def SIPropUnit.mul {K : Type} [Mul K] {D1 D2 : Dimension7}
    (u1 : SIPropUnit K D1) (u2 : SIPropUnit K D2) :
    SIPropUnit K (dimMul D1 D2) :=
  SIPropUnit.new (u1.prop_constant * u2.prop_constant)

/-- `impl Div for SIPropUnit` (src/core/units/proportional_unit.rs lines
117-129): the constant is the quotient of the constants, the dimension is
the dimension-level `Div` of the dimensions. -/
def SIPropUnit.div {K : Type} [Div K] {D1 D2 : Dimension7}
    (u1 : SIPropUnit K D1) (u2 : SIPropUnit K D2) :
    SIPropUnit K (dimDiv D1 D2) :=
  SIPropUnit.new (u1.prop_constant / u2.prop_constant)

/-- C1: for every proportional unit with nonzero constant `k` and every
magnitude `v`, extracting after constructing returns `v` exactly (over
exact arithmetic): construction computes `v * k` and extraction divides
by `k`. -/
theorem proportional_roundtrip (k : ℚ) (hk : k ≠ 0) (D : Dimension7)
    (v : ℚ) :
    Unit.get (SIPropUnit.new k : SIPropUnit ℚ D)
      (Unit.new (SIPropUnit.new k : SIPropUnit ℚ D) v) = v := by
  show v * k / k = v
  exact mul_div_cancel_right₀ v hk

/-- Witness for C1 at `k = 2`, `v = 5` on the length dimension. -/
theorem proportional_roundtrip_witness :
    (2 : ℚ) ≠ 0 ∧
    Unit.get (SIPropUnit.new 2 : SIPropUnit ℚ lengthDim)
      (Unit.new (SIPropUnit.new 2 : SIPropUnit ℚ lengthDim) (5 : ℚ)) = 5 :=
  ⟨two_ne_zero, proportional_roundtrip 2 two_ne_zero lengthDim 5⟩

/-- C2: unary negation of a quantity flips the sign of the magnitude and
leaves the dimension unchanged (the dimension-level negation used by the
quantity `Neg` impl is the dimension-preserving one, not the reciprocal). -/
theorem neg_magnitude_dimension (α : Type) [Neg α] (D : Dimension7)
    (q : Quantity α D) :
    (Quantity.neg q).get_si = -(q.get_si) ∧ dimNegQ D = D :=
  ⟨rfl, rfl⟩

/-- C3: addition and subtraction of quantities are defined exactly when
the two dimensions are identical (the dimension-level `Add`/`Sub` is
absent — `none` — on mismatched dimensions, so the operation cannot be
expressed), the result has that same dimension, and the magnitude is the
sum/difference of the operand magnitudes. -/
theorem add_sub_dimension_checked (α : Type) [Add α] [Sub α] :
    (∀ a : Dimension7, dimAdd a a = some a ∧ dimSub a a = some a) ∧
    (∀ a b : Dimension7, a ≠ b → dimAdd a b = none ∧ dimSub a b = none) ∧
    (∀ (D : Dimension7) (q1 q2 : Quantity α D) (h : dimAdd D D = some D),
        (Quantity.add q1 q2 D h).get_si = q1.get_si + q2.get_si) ∧
    (∀ (D : Dimension7) (q1 q2 : Quantity α D) (h : dimSub D D = some D),
        (Quantity.sub q1 q2 D h).get_si = q1.get_si - q2.get_si) := by
  refine ⟨fun a => ⟨by simp [dimAdd], by simp [dimSub]⟩,
    fun a b hab => ⟨by simp [dimAdd, hab], by simp [dimSub, hab]⟩,
    fun _ _ _ _ => rfl, fun _ _ _ _ => rfl⟩

/-- Witness for C3: adding a length to a time is rejected (no
dimension-level `Add`), while `3 + 4` on two lengths is accepted and
yields `7` of the same dimension. -/
theorem add_sub_dimension_checked_witness :
    lengthDim ≠ timeDim ∧
    dimAdd lengthDim timeDim = none ∧
    dimAdd lengthDim lengthDim = some lengthDim ∧
    (Quantity.add (Quantity.from_si 3 : Quantity ℤ lengthDim)
      (Quantity.from_si 4 : Quantity ℤ lengthDim) lengthDim
      (by decide)).get_si = 7 :=
  ⟨by decide,
   ((add_sub_dimension_checked ℤ).2.1 lengthDim timeDim (by decide)).1,
   by decide,
   ((add_sub_dimension_checked ℤ).2.2.1 lengthDim (Quantity.from_si 3)
      (Quantity.from_si 4) (by decide)).trans (by decide)⟩

/-- C4: multiplication of quantities is defined for every pair of
dimensions and yields the component-wise sum of the exponents with the
product of the magnitudes; division yields the component-wise difference
with the quotient of the magnitudes; dividing `10` of dimension length by
`2` of dimension time gives `5` of dimension length/time. -/
theorem mul_div_dimension_propagation (α : Type) [Mul α] [Div α]
    (D1 D2 : Dimension7) (q1 : Quantity α D1) (q2 : Quantity α D2) :
    ((Quantity.mul q1 q2).get_si = q1.get_si * q2.get_si ∧
      dimMul D1 D2 = dimCombine D1 D2) ∧
    ((Quantity.div q1 q2).get_si = q1.get_si / q2.get_si ∧
      dimDiv D1 D2 = dimCombine D1 (dimNegate D2)) ∧
    ((Quantity.div (Quantity.from_si 10 : Quantity ℚ lengthDim)
        (Quantity.from_si 2 : Quantity ℚ timeDim)).get_si = 5 ∧
      dimDiv lengthDim timeDim = ⟨1, 0, -1, 0, 0, 0, 0⟩) := by
  refine ⟨⟨rfl, rfl⟩, ⟨rfl, rfl⟩, ?_, by decide⟩
  show (10 : ℚ) / 2 = 5
  norm_num

/-- C5: multiplying two proportional units yields a proportional unit
whose constant is the product of the constants and whose dimension is
`combine(D1, D2)`; dividing yields the quotient of the constants and
dimension `combine(D1, negate(D2))`; a meter unit (`k = 1`) divided by a
foot unit (`k = 0.3048`) is a dimensionless proportional unit with
constant `1 / 0.3048`. -/
theorem unit_composition (K : Type) [Mul K] [Div K] (D1 D2 : Dimension7)
    (k1 k2 : K) :
    ((SIPropUnit.mul (SIPropUnit.new k1 : SIPropUnit K D1)
        (SIPropUnit.new k2 : SIPropUnit K D2)).prop_constant = k1 * k2 ∧
      dimMul D1 D2 = dimCombine D1 D2) ∧
    ((SIPropUnit.div (SIPropUnit.new k1 : SIPropUnit K D1)
        (SIPropUnit.new k2 : SIPropUnit K D2)).prop_constant = k1 / k2 ∧
      dimDiv D1 D2 = dimCombine D1 (dimNegate D2)) ∧
    ((SIPropUnit.div (SIPropUnit.new (1 : ℚ) : SIPropUnit ℚ lengthDim)
        (SIPropUnit.new (0.3048 : ℚ) : SIPropUnit ℚ lengthDim)).prop_constant
          = 1 / (0.3048 : ℚ) ∧
      dimDiv lengthDim lengthDim = dimIdentity) :=
  ⟨⟨rfl, rfl⟩, ⟨rfl, rfl⟩, rfl, by decide⟩

/-- C6: the SI unit's construct (`new`) stores exactly the input value as
the internal magnitude and its extract (`get`) returns exactly the
internal magnitude — both are identity functions on the magnitude, for
every value type. -/
theorem si_unit_identity (α : Type) (D : Dimension7) (u : SIUnit D)
    (v : α) (q : Quantity α D) :
    Unit.new u v = (Quantity.from_si v : Quantity α D) ∧
    (Unit.new u v).get_si = v ∧
    Unit.get u q = q.get_si ∧
    Unit.get u (Unit.new u v) = v :=
  ⟨rfl, rfl, rfl, rfl⟩

/-- C7: constructing `5` through a proportional unit with `k = 2` gives
internal magnitude `10`; extracting through the SI unit gives `10`;
extracting through the original unit gives `5`. -/
theorem scenario_prop_unit_k2 :
    (Unit.new (SIPropUnit.new (2 : ℚ) : SIPropUnit ℚ lengthDim)
        (5 : ℚ)).get_si = 10 ∧
    Unit.get (SIUnit.mk : SIUnit lengthDim)
      (Unit.new (SIPropUnit.new (2 : ℚ) : SIPropUnit ℚ lengthDim)
        (5 : ℚ)) = 10 ∧
    Unit.get (SIPropUnit.new (2 : ℚ) : SIPropUnit ℚ lengthDim)
      (Unit.new (SIPropUnit.new (2 : ℚ) : SIPropUnit ℚ lengthDim)
        (5 : ℚ)) = 5 := by
  refine ⟨?_, ?_, ?_⟩
  · show (5 * 2 : ℚ) = 10
    norm_num
  · show (5 * 2 : ℚ) = 10
    norm_num
  · show (5 * 2 : ℚ) / 2 = 5
    norm_num

/-- C8: `SIPropUnit::new` is total and performs no `k ≠ 0` validation —
it stores whatever constant it is given, including zero — and extraction
through a zero-constant unit is the scalar type's unguarded division by
the constant (no recoverable error path exists). -/
theorem zero_constant_unguarded :
    (∀ (K : Type) (D : Dimension7) (k : K),
        (SIPropUnit.new k : SIPropUnit K D).prop_constant = k) ∧
    (∀ (D : Dimension7) (q : Quantity ℚ D),
        Unit.get (SIPropUnit.new (0 : ℚ) : SIPropUnit ℚ D) q
          = q.get_si / 0) :=
  ⟨fun _ _ _ => rfl, fun _ _ => rfl⟩

/-- C9: `get_runtime_dim` returns a `RuntimeDimension` whose seven fields
equal the dimension's seven exponents, and two `RuntimeDimension` values
are equal iff all seven exponent fields match. -/
theorem runtime_dimension_materialize :
    (∀ d : Dimension7,
        d.get_runtime_dim = RuntimeDimension.new d.length d.mass d.time
          d.electric_current d.temperature d.amount_of_substance
          d.luminous_intensity ∧
        d.get_runtime_dim.length = d.length ∧
        d.get_runtime_dim.mass = d.mass ∧
        d.get_runtime_dim.time = d.time ∧
        d.get_runtime_dim.electric_current = d.electric_current ∧
        d.get_runtime_dim.temperature = d.temperature ∧
        d.get_runtime_dim.amount_of_substance = d.amount_of_substance ∧
        d.get_runtime_dim.luminous_intensity = d.luminous_intensity) ∧
    (∀ r1 r2 : RuntimeDimension, r1 = r2 ↔
        (r1.length = r2.length ∧ r1.mass = r2.mass ∧ r1.time = r2.time ∧
          r1.electric_current = r2.electric_current ∧
          r1.temperature = r2.temperature ∧
          r1.amount_of_substance = r2.amount_of_substance ∧
          r1.luminous_intensity = r2.luminous_intensity)) := by
  refine ⟨fun d => ⟨rfl, rfl, rfl, rfl, rfl, rfl, rfl, rfl⟩,
    fun r1 r2 => ?_⟩
  cases r1
  cases r2
  simp

/-- C10: `from_si` and `get_si` are mutually inverse identity functions
on the stored magnitude, for every value type and dimension. -/
theorem from_si_get_si_roundtrip (α : Type) (D : Dimension7) (v : α)
    (q : Quantity α D) :
    (Quantity.from_si v : Quantity α D).get_si = v ∧
    Quantity.from_si q.get_si = q :=
  ⟨rfl, rfl⟩

end RustUnits
